import Mathlib

/-!
# Verification of the public-health data dashboard pipeline

A shallow embedding in Lean 4 of the dashboard's core pipeline
(`src/cleaning.py`, `src/analysis.py`, `src/crud.py`, `src/main.py`):
the tabular data model, the CRUD layer over the SQLite-backed store,
the filtering / statistics / trend analysis functions, and the fluent
`DataAnalyzer` wrapper.  Machine floats of the source are embedded as
exact rationals (`ℚ`); an irrational statistic (sample standard
deviation) is represented symbolically.  Fallible Python functions
(those that `raise`) are embedded as `Except`-valued functions.
-/

/-- A cell value of a tabular dataset: the dynamically typed values the
source moves through pandas frames and SQLite rows (string, integer,
rational number standing for a float, boolean, or null/NaN). -/
inductive Value where
  | int : Int → Value
  | rat : ℚ → Value
  | str : String → Value
  | bool : Bool → Value
  | null : Value
deriving DecidableEq, Repr

/-- A tabular dataset (`pandas.DataFrame`): an ordered column schema and
a list of rows, each row a list of cells positionally aligned with the
schema. -/
structure DataFrame where
  cols : List String
  rows : List (List Value)
deriving DecidableEq, Repr

/-- The persisted SQLite store: a finite association of table names to
stored tables.  Each table is kept as the dataframe shape SQLite stores
for it (`to_sql` creates the table with the frame's columns and rows). -/
abbrev Database := List (String × DataFrame)

/-- Look a table up by name in the store (SQLAlchemy `inspect` +
`get_table_names` / reading the table). -/
def lookupTable (db : Database) (table_name : String) : Option DataFrame :=
  (db.find? (fun p => p.1 == table_name)).map (fun p => p.2)

/-- Replace the named table with `df`, creating it if absent
(`DataFrame.to_sql` with `if_exists = 'replace'`). -/
def setTable : Database → String → DataFrame → Database
  | [], t, df => [(t, df)]
  | (n, old) :: rest, t, df =>
      if n == t then (n, df) :: rest else (n, old) :: setTable rest t df

/-- Append rows to the named table (`DataFrame.to_sql` with
`if_exists = 'append'`); a no-op when the table is absent. -/
def appendRows : Database → String → List (List Value) → Database
  | [], _, _ => []
  | (n, tbl) :: rest, t, rs =>
      if n == t then (n, { tbl with rows := tbl.rows ++ rs }) :: rest
      else (n, tbl) :: appendRows rest t rs

/-- Errors the CRUD layer (`src/crud.py`) raises (all `ValueError` in
Python; distinguished here by their messages). -/
inductive CrudError where
  | whereRequired : String → CrudError
  | tableNotFound : String → CrudError
  | missingColumns : List String → CrudError
deriving DecidableEq, Repr

/-- Look a column up in a record (a Python dict from column name to
value). -/
def recordLookup (record : List (String × Value)) (c : String) : Option Value :=
  (record.find? (fun p => p.1 == c)).map (fun p => p.2)

/-- `create_record` (crud.py:53): validate the table exists, compute the
table columns missing from the record, fail with the missing-column
error when any exist, otherwise insert the record's row aligned to the
table schema. -/
def create_record (db : Database) (table_name : String)
    (record : List (String × Value)) : Except CrudError Database :=
  match lookupTable db table_name with
  | none => .error (.tableNotFound table_name)
  | some tbl =>
      let missing_cols := tbl.cols.filter (fun c => (recordLookup record c).isNone)
      if missing_cols.isEmpty then
        .ok (appendRows db table_name
              [tbl.cols.map (fun c => (recordLookup record c).getD .null)])
      else .error (.missingColumns missing_cols)

/-- `create_records` (crud.py:101): validate the table exists, then
convert the records to a frame and append it — the source performs no
missing-column check here, so columns a record omits are stored as
NULL (`pd.DataFrame(records)` leaves them NaN and the insert stores
NULL). -/
def create_records (db : Database) (table_name : String)
    (records : List (List (String × Value))) : Except CrudError Database :=
  match lookupTable db table_name with
  | none => .error (.tableNotFound table_name)
  | some tbl =>
      .ok (appendRows db table_name
            (records.map (fun r => tbl.cols.map (fun c => (recordLookup r c).getD .null))))

/-- Apply a SET clause to one row: each updated column takes its new
value, the rest are unchanged. -/
def applyUpdates (cols : List String) (updates : List (String × Value))
    (row : List Value) : List Value :=
  (cols.zip row).map (fun p =>
    match recordLookup updates p.1 with
    | some v => v
    | none => p.2)

/-- `update_record` (crud.py:239).  The raw SQL WHERE string of the
source is embedded by its denotation, a Boolean predicate on rows.  The
absent-`where` check is the first statement of the function, before any
engine creation or table validation. -/
def update_record (db : Database) (table_name : String)
    (updates : List (String × Value))
    (whereClause : Option (List Value → Bool)) :
    Except CrudError (Database × Nat) :=
  match whereClause with
  | none => .error (.whereRequired
      "WHERE clause is required for UPDATE operations (safety check)")
  | some w =>
      match lookupTable db table_name with
      | none => .error (.tableNotFound table_name)
      | some tbl =>
          let affected := (tbl.rows.filter w).length
          let newRows := tbl.rows.map (fun r =>
            if w r then applyUpdates tbl.cols updates r else r)
          .ok (setTable db table_name { tbl with rows := newRows }, affected)

/-- `delete_record` (crud.py:327): same mandatory-WHERE safety rail as
`update_record`, checked before any engine creation or table
validation; deletes the matching rows and returns their count. -/
def delete_record (db : Database) (table_name : String)
    (whereClause : Option (List Value → Bool)) :
    Except CrudError (Database × Nat) :=
  match whereClause with
  | none => .error (.whereRequired
      "WHERE clause is required for DELETE operations (safety check)")
  | some w =>
      match lookupTable db table_name with
      | none => .error (.tableNotFound table_name)
      | some tbl =>
          let affected := (tbl.rows.filter w).length
          let newRows := tbl.rows.filter (fun r => !w r)
          .ok (setTable db table_name { tbl with rows := newRows }, affected)

/-! ## Dataset loader (`src/main.py`) -/

/-- The `if_exists` modes of `DataFrame.to_sql`. -/
inductive IfExists where
  | fail
  | replace
  | append
deriving DecidableEq, Repr

/-- Errors the loader raises (`ValueError` / `FileNotFoundError` in
Python, distinguished by their messages). -/
inductive LoadError where
  | emptyDataFrame
  | invalidTableName
  | tableExists
  | databaseNotFound
  | tableNotFound : String → LoadError
deriving DecidableEq, Repr

/-- `load_to_database` (main.py:146): reject an empty frame, then a
blank table name, then write the frame to the store under the chosen
`if_exists` mode. -/
def load_to_database (df : DataFrame) (db : Database) (table_name : String)
    (if_exists : IfExists) : Except LoadError Database :=
  if df.rows.isEmpty then .error .emptyDataFrame
  else if table_name = "" then .error .invalidTableName
  else
    match if_exists with
    | .replace => .ok (setTable db table_name df)
    | .append =>
        match lookupTable db table_name with
        | none => .ok (setTable db table_name df)
        | some _ => .ok (appendRows db table_name df.rows)
    | .fail =>
        match lookupTable db table_name with
        | none => .ok (setTable db table_name df)
        | some _ => .error .tableExists

/-- `read_from_database` (main.py:188): fail when the store file does
not exist (the store argument is `none`), fail when the table is
absent, otherwise return the stored table; a supplied raw SQL query is
embedded by its denotation, a function from the store to a result
frame, executed instead of the whole-table read. -/
def read_from_database (db : Option Database) (table_name : String)
    (query : Option (Database → DataFrame)) : Except LoadError DataFrame :=
  match db with
  | none => .error .databaseNotFound
  | some db =>
      match lookupTable db table_name with
      | none => .error (.tableNotFound table_name)
      | some tbl =>
          match query with
          | some q => .ok (q db)
          | none => .ok tbl

/-! ## Analysis engine (`src/analysis.py`): filters -/

/-- The `value` argument of `filter_by_column` /
`filter_by_multiple_conditions`: a scalar or a list of values (the
source branches on `isinstance(value, list)`). -/
inductive FilterValue where
  | scalar : Value → FilterValue
  | list : List Value → FilterValue
deriving DecidableEq, Repr

/-- Read the cell of row `r` at the named column of schema `cols`. -/
def cellOf (cols : List String) (column : String) (r : List Value) : Option Value :=
  match cols.indexOf? column with
  | some i => r.get? i
  | none => none

/-- Pandas elementwise equality `series == value`: null (NaN) compares
unequal to everything, itself included. -/
def seriesEq (v x : Value) : Bool :=
  match v, x with
  | .null, _ => false
  | _, .null => false
  | v, x => v == x

/-- The row test of `filter_by_column` (analysis.py:19) and of each
step of `filter_by_multiple_conditions`: membership (`Series.isin`)
for a list value, elementwise equality for a scalar. -/
def matchesValue (cols : List String) (column : String) (value : FilterValue)
    (r : List Value) : Bool :=
  match cellOf cols column r with
  | none => false
  | some v =>
      match value with
      | .scalar x => seriesEq v x
      | .list xs => xs.contains v

/-- `filter_by_column` (analysis.py:19): keep the rows whose cell at
`column` passes the equality / membership test. -/
def filter_by_column (df : DataFrame) (column : String) (value : FilterValue) :
    DataFrame :=
  { df with rows := df.rows.filter (matchesValue df.cols column value) }

/-- The row mask of `filter_by_date_range` (analysis.py:47): starts all
true, conjoins `col ≥ start` when a start bound is given and
`col ≤ end` when an end bound is given.  Dates are embedded as the
integer timestamps the coerced datetime column holds; comparisons
against a null date (NaT) are false, as in pandas. -/
def inDateRange (cols : List String) (date_column : String)
    (start_date end_date : Option Int) (r : List Value) : Bool :=
  (match start_date with
   | some s =>
      match cellOf cols date_column r with
      | some (.int d) => s ≤ d
      | _ => false
   | none => true) &&
  (match end_date with
   | some e =>
      match cellOf cols date_column r with
      | some (.int d) => d ≤ e
      | _ => false
   | none => true)

/-- `filter_by_date_range` (analysis.py:47): inclusive bounds, either
optional. -/
def filter_by_date_range (df : DataFrame) (date_column : String)
    (start_date end_date : Option Int) : DataFrame :=
  { df with rows := df.rows.filter (inDateRange df.cols date_column start_date end_date) }

/-- `filter_by_multiple_conditions` (analysis.py:89): apply the
equality / membership filter of each (column, value) condition in
order. -/
def filter_by_multiple_conditions (df : DataFrame)
    (conditions : List (String × FilterValue)) : DataFrame :=
  conditions.foldl
    (fun acc cv => { acc with rows := acc.rows.filter (matchesValue acc.cols cv.1 cv.2) })
    df

/-! ## Analysis engine: summary statistics -/

/-- A numeric-analysis view of a dataframe: each column's non-null
numeric values, in row order (the values pandas reductions such as
`mean` / `count` operate on after skipping NaN). -/
abbrev StatFrame := List (String × List ℚ)

/-- The non-null values of the named column (empty when the column is
absent). -/
def getColumn (df : StatFrame) (column : String) : List ℚ :=
  ((df.find? (fun p => p.1 == column)).map (fun p => p.2)).getD []

/-- The value of one computed statistic.  Pandas returns floats; we
keep exact rationals, represent the irrational sample standard
deviation symbolically as the square root of its (rational) variance,
and represent the `NaN` pandas reductions return on empty input. -/
inductive StatVal where
  | q : ℚ → StatVal
  | sqrtq : ℚ → StatVal
  | nan : StatVal
deriving DecidableEq, Repr

/-- `Series.mean` over the non-null values. -/
def statMean (xs : List ℚ) : StatVal :=
  if xs.isEmpty then .nan else .q (xs.sum / (xs.length : ℚ))

/-- `Series.median`: middle of the sorted values, or the mean of the
two middles for even length. -/
def statMedian (xs : List ℚ) : StatVal :=
  if xs.isEmpty then .nan
  else
    let s := List.insertionSort (· ≤ ·) xs
    let n := s.length
    if n % 2 = 1 then .q (s.getD (n / 2) 0)
    else .q ((s.getD (n / 2 - 1) 0 + s.getD (n / 2) 0) / 2)

/-- `Series.min`. -/
def statMin (xs : List ℚ) : StatVal :=
  if xs.isEmpty then .nan else .q ((List.insertionSort (· ≤ ·) xs).headD 0)

/-- `Series.max`. -/
def statMax (xs : List ℚ) : StatVal :=
  if xs.isEmpty then .nan else .q ((List.insertionSort (· ≤ ·) xs).getLastD 0)

/-- `Series.sum` (0 on empty input). -/
def statSum (xs : List ℚ) : StatVal := .q xs.sum

/-- `Series.count`: the number of non-null values. -/
def statCount (xs : List ℚ) : StatVal := .q (xs.length : ℚ)

/-- `Series.std`: sample standard deviation (denominator n − 1),
represented as the square root of the sample variance; NaN for fewer
than two values. -/
def statStd (xs : List ℚ) : StatVal :=
  if xs.length < 2 then .nan
  else
    let m := xs.sum / (xs.length : ℚ)
    .sqrtq ((xs.map (fun x => (x - m) ^ 2)).sum / ((xs.length : ℚ) - 1))

/-- Insert into a Python dict (embedded as an association list):
overwrite the value when the key is present, append otherwise. -/
def dictInsert (d : List (String × StatVal)) (k : String) (v : StatVal) :
    List (String × StatVal) :=
  if d.any (fun p => p.1 == k) then
    d.map (fun p => if p.1 == k then (p.1, v) else p)
  else d ++ [(k, v)]

/-- The default metrics list of `calculate_statistics`
(analysis.py:148). -/
def defaultMetrics : List String :=
  ["mean", "median", "min", "max", "sum", "count", "std"]

/-- One iteration of the `for metric in metrics` loop of
`calculate_statistics` (analysis.py:152): the if/elif chain stores the
matching statistic and falls through silently on any other name. -/
def statStep (xs : List ℚ) (stats : List (String × StatVal)) (metric : String) :
    List (String × StatVal) :=
  if metric = "mean" then dictInsert stats "mean" (statMean xs)
  else if metric = "median" then dictInsert stats "median" (statMedian xs)
  else if metric = "min" then dictInsert stats "min" (statMin xs)
  else if metric = "max" then dictInsert stats "max" (statMax xs)
  else if metric = "sum" then dictInsert stats "sum" (statSum xs)
  else if metric = "count" then dictInsert stats "count" (statCount xs)
  else if metric = "std" then dictInsert stats "std" (statStd xs)
  else stats

/-- `calculate_statistics` (analysis.py:124): default the metrics list,
then run the loop over it starting from the empty dict. -/
def calculate_statistics (df : StatFrame) (column : String)
    (metrics : Option (List String)) : List (String × StatVal) :=
  let ms := metrics.getD defaultMetrics
  let xs := getColumn df column
  ms.foldl (statStep xs) []

/-- `calculate_summary` (analysis.py:171): one
`calculate_statistics` result per requested column. -/
def calculate_summary (df : StatFrame) (columns : List String)
    (metrics : Option (List String)) : List (String × List (String × StatVal)) :=
  columns.map (fun c => (c, calculate_statistics df c metrics))

/-- `compare_groups` (analysis.py:355): `calculate_statistics` of the
value column restricted to each group, one entry per distinct group
key (here over a grouped view: each group name paired with that
group's column values). -/
def compare_groups (groups : List (String × List ℚ)) (metrics : Option (List String)) :
    List (String × List (String × StatVal)) :=
  groups.map (fun g => (g.1, (metrics.getD defaultMetrics).foldl (statStep g.2) []))

/-! ## Analysis engine: trends -/

/-- One row of a time-series dataset as `analyze_trends` consumes it:
a date (the coerced datetime column, embedded as an integer
timestamp), an optional grouping key, and the numeric value column. -/
structure TrendRow where
  date : Int
  group : String
  value : ℚ
deriving DecidableEq, Repr

/-- The metrics dict `_calculate_trend_metrics` builds
(analysis.py:273). -/
structure TrendMetrics where
  total : ℚ
  average : ℚ
  growth_rate : ℚ
  trend : String
  first_value : ℚ
  last_value : ℚ
deriving DecidableEq, Repr

/-- `_calculate_trend_metrics` (analysis.py:251) over the value column
of an already date-sorted frame: sum, mean, growth rate from first to
last value (0 when the first value is 0), and the ±5 threshold
classification of the trend direction. -/
def calculate_trend_metrics (values : List ℚ) : TrendMetrics :=
  let total := values.sum
  let average := total / (values.length : ℚ)
  let first_value := values.headD 0
  let last_value := values.getLastD 0
  let growth_rate :=
    if first_value ≠ 0 then ((last_value - first_value) / first_value) * 100 else 0
  let trend :=
    if growth_rate > 5 then "increasing"
    else if growth_rate < -5 then "decreasing"
    else "stable"
  { total := total, average := average, growth_rate := growth_rate,
    trend := trend, first_value := first_value, last_value := last_value }

/-- `df_copy.sort_values(date_column)` (analysis.py:239): sort the rows
by date ascending. -/
def sortByDate (rows : List TrendRow) : List TrendRow :=
  List.insertionSort (fun a b => a.date ≤ b.date) rows

/-- `analyze_trends` (analysis.py:201) with `group_by = None`: sort by
date, then compute the trend metrics of the whole value column. -/
def analyze_trends (rows : List TrendRow) : TrendMetrics :=
  calculate_trend_metrics ((sortByDate rows).map (fun r => r.value))

/-- `analyze_trends` with a `group_by` column: sort by date, then one
trend-metrics block per distinct group key (pandas `groupby` iterates
the distinct keys in sorted order, each group keeping the sorted
frame's row order). -/
def analyze_trends_grouped (rows : List TrendRow) :
    List (String × TrendMetrics) :=
  let sorted := sortByDate rows
  let keys := List.insertionSort (· ≤ ·) (sorted.map (fun r => r.group)).dedup
  keys.map (fun g =>
    (g, calculate_trend_metrics ((sorted.filter (fun r => r.group == g)).map (fun r => r.value))))

/-! ## Analysis engine: moving average -/

/-- Arithmetic mean of a list of rationals. -/
def qmean (l : List ℚ) : ℚ := l.sum / (l.length : ℚ)

/-- The trailing window ending at row `i`: the last `w` (or fewer, near
the start) elements among the first `i + 1`. -/
def windowSlice (xs : List ℚ) (w i : Nat) : List ℚ :=
  (xs.take (i + 1)).drop (i + 1 - w)

/-- `calculate_moving_average` (analysis.py:283): the added output
column, `df_copy[column].rolling(window=window).mean()`.  With pandas'
default `min_periods = window`, row `i` holds the mean of the trailing
window when at least `window` observations exist (`window ≤ i + 1`)
and NaN (`none`) before that.  The input column is embedded as its
numeric values in row order; the frame copy and the output-column
naming carry no computational content and are not repeated here. -/
def calculate_moving_average (xs : List ℚ) (window : Nat) : List (Option ℚ) :=
  (List.range xs.length).map (fun i =>
    if window ≤ i + 1 then some (qmean (windowSlice xs window i)) else none)

/-! ## Cleaning engine (`src/cleaning.py`): outlier detection -/

/-- `Series.quantile(q)` with pandas' default linear interpolation:
sort the values, take position `q · (n − 1)`, and interpolate between
the two neighbouring sorted values. -/
def quantile (xs : List ℚ) (q : ℚ) : ℚ :=
  let s := List.insertionSort (· ≤ ·) xs
  let n := s.length
  if n = 0 then 0
  else
    let pos : ℚ := q * ((n : ℚ) - 1)
    let lo : Nat := (⌊pos⌋).toNat
    let frac : ℚ := pos - (lo : ℚ)
    let vlo := s.getD lo 0
    let vhi := s.getD (lo + 1) vlo
    vlo + frac * (vhi - vlo)

/-- The `method == 'iqr'` branch of `detect_outliers`
(cleaning.py:303): Q1 and Q3 are the 25th and 75th percentiles,
`lower = Q1 - threshold·IQR`, `upper = Q3 + threshold·IQR`, and the
mask flags the values strictly outside `[lower, upper]`. -/
def detect_outliers_iqr (xs : List ℚ) (threshold : ℚ) : List Bool :=
  let q1 := quantile xs (1 / 4)
  let q3 := quantile xs (3 / 4)
  let iqr := q3 - q1
  let lower := q1 - threshold * iqr
  let upper := q3 + threshold * iqr
  xs.map (fun x => decide (x < lower) || decide (upper < x))

/-! ## The fluent `DataAnalyzer` wrapper (analysis.py:392) -/

/-- Errors of the analysis layer.  The spec's taxonomy names an
`InvalidState` error for aggregate-before-group-by; the constructor
exists so that claim can be stated, though no code path of the source
produces it. -/
inductive AnalysisError where
  | invalidState
deriving DecidableEq, Repr

/-- Mean / sum / count / min / max dispatch of a pandas aggregation
name over one group's non-null numeric values.  Other pandas
aggregation names exist but are outside the claims under study; they
default to the group sum here. -/
def aggValue (func : String) (vals : List ℚ) : ℚ :=
  if func = "sum" then vals.sum
  else if func = "mean" then vals.sum / (vals.length : ℚ)
  else if func = "count" then (vals.length : ℚ)
  else if func = "min" then (List.insertionSort (· ≤ ·) vals).headD 0
  else if func = "max" then (List.insertionSort (· ≤ ·) vals).getLastD 0
  else vals.sum

/-- The non-null numeric reading of a cell. -/
def Value.toRat : Value → Option ℚ
  | .int n => some (n : ℚ)
  | .rat q => some q
  | _ => none

/-- `group_and_aggregate` (analysis.py:318) for a single group-by
column and a single aggregation function: one output row per distinct
group key (first-occurrence order), holding the key and the aggregated
value column. -/
def group_and_aggregate (df : DataFrame) (group_by : String)
    (agg_column : String) (agg_func : String) : DataFrame :=
  let keyOf := fun r => (cellOf df.cols group_by r).getD .null
  let keys := (df.rows.map keyOf).eraseDups
  { cols := [group_by, agg_column],
    rows := keys.map (fun k =>
      [k, .rat (aggValue agg_func
        ((df.rows.filter (fun r => keyOf r == k)).filterMap
          (fun r => (cellOf df.cols agg_column r).bind Value.toRat)))]) }

/-- The state of a `DataAnalyzer` instance: the pristine and current
frames, the operations log, and the `_group_by` attribute (present
exactly when a `group_by()` call is pending). -/
structure DataAnalyzer where
  original_df : DataFrame
  df : DataFrame
  operations : List String
  group_by_pending : Option String
deriving DecidableEq, Repr

/-- `DataAnalyzer.__init__` (analysis.py:408): both frames are copies
of the input, the log is empty, no grouping is pending. -/
def DataAnalyzer.mk0 (df : DataFrame) : DataAnalyzer :=
  { original_df := df, df := df, operations := [], group_by_pending := none }

/-- `DataAnalyzer.group_by` (analysis.py:493): record the pending
grouping column and log the call. -/
def DataAnalyzer.group_by (s : DataAnalyzer) (column : String) : DataAnalyzer :=
  { s with group_by_pending := some column,
           operations := s.operations ++ ["group_by(\x27" ++ column ++ "\x27)"] }

/-- The log entry `aggregate` appends (analysis.py:537). -/
def aggregateLogEntry (column func : String) : String :=
  "aggregate(\x27" ++ column ++ "\x27, \x27" ++ func ++ "\x27)"

/-- `DataAnalyzer.aggregate` (analysis.py:514): when a grouping is
pending (`hasattr(self, '_group_by')`) aggregate the current frame and
consume the pending grouping; otherwise change nothing.  Either way
append the log entry and return normally — the source has no error
path here. -/
def DataAnalyzer.aggregate (s : DataAnalyzer) (column : String) (func : String) :
    Except AnalysisError DataAnalyzer :=
  match s.group_by_pending with
  | some g =>
      .ok { s with df := group_and_aggregate s.df g column func,
                   group_by_pending := none,
                   operations := s.operations ++ [aggregateLogEntry column func] }
  | none =>
      .ok { s with operations := s.operations ++ [aggregateLogEntry column func] }

/-! ## Theorems -/

/-- C1: `update_record` and `delete_record` with an absent `where`
argument fail with the WHERE-required `ValidationError`, for every
store, table name and update set — in particular before any table
validation or statement execution could touch the store (the result is
the same error even on stores where the table does not exist), so the
persisted store is left unchanged. -/
theorem update_delete_require_where (db : Database) (table_name : String)
    (updates : List (String × Value)) :
    update_record db table_name updates none =
      .error (.whereRequired
        "WHERE clause is required for UPDATE operations (safety check)") ∧
    delete_record db table_name none =
      .error (.whereRequired
        "WHERE clause is required for DELETE operations (safety check)") :=
  ⟨rfl, rfl⟩

/-- A table just written with `replace` semantics is read back
exactly. -/
theorem lookupTable_setTable (db : Database) (t : String) (df : DataFrame) :
    lookupTable (setTable db t df) t = some df := by
  induction db with
  | nil => simp [setTable, lookupTable]
  | cons p rest ih =>
      obtain ⟨n, old⟩ := p
      cases h : (n == t) with
      | true => simp [setTable, lookupTable, List.find?, h]
      | false =>
          simp only [setTable, h, Bool.false_eq_true, if_false]
          simpa [lookupTable, List.find?, h] using ih

/-- C4: persisting a non-empty dataset with `load_to_database`
(`if_exists = 'replace'`) and reading it back with
`read_from_database` returns the original dataset, values and column
order included. -/
theorem persist_read_roundtrip (df : DataFrame) (db : Database) (t : String)
    (h1 : df.rows ≠ []) (h2 : t ≠ "") :
    load_to_database df db t .replace = .ok (setTable db t df) ∧
    read_from_database (some (setTable db t df)) t none = .ok df := by
  constructor
  · simp [load_to_database, h1, h2]
  · simp [read_from_database, lookupTable_setTable]

/-- Concrete round trip: a one-column, one-row dataset through an
empty store. -/
theorem persist_read_roundtrip_witness :
    load_to_database ⟨["cases"], [[Value.int 7]]⟩ [] "health" .replace =
      .ok (setTable [] "health" ⟨["cases"], [[Value.int 7]]⟩) ∧
    read_from_database (some (setTable [] "health" ⟨["cases"], [[Value.int 7]]⟩))
      "health" none = .ok ⟨["cases"], [[Value.int 7]]⟩ :=
  persist_read_roundtrip ⟨["cases"], [[Value.int 7]]⟩ [] "health"
    (by decide) (by decide)

/-- A patients table with columns id, name, age and no rows. -/
def patientsDB : Database := [("patients", ⟨["id", "name", "age"], []⟩)]

/-- C3: the single-record `create_record` rejects a record missing the
`name` and `age` columns with the missing-column `ValidationError`,
but the bulk `create_records` accepts the same record and inserts it
with NULLs in the missing columns — contrary to its own docstring,
which promises a missing-column error for bulk inserts too. -/
theorem create_records_skips_validation :
    create_record patientsDB "patients" [("id", .int 1)] =
      .error (.missingColumns ["name", "age"]) ∧
    create_records patientsDB "patients" [[("id", .int 1)]] =
      .ok [("patients", ⟨["id", "name", "age"], [[.int 1, .null, .null]]⟩)] :=
  ⟨rfl, rfl⟩

/-- A fresh analyzer over a one-row frame, so no grouping is
pending. -/
def analyzerNoGroup : DataAnalyzer :=
  DataAnalyzer.mk0 ⟨["country", "cases"], [[.str "UK", .int 100]]⟩

/-- C2, counterexample: on an analyzer with no preceding `group_by`,
`aggregate` does not fail with `InvalidState` — it returns
normally. -/
theorem aggregate_no_invalid_state :
    DataAnalyzer.aggregate analyzerNoGroup "cases" "sum" ≠
      Except.error AnalysisError.invalidState := by
  simp [analyzerNoGroup, DataAnalyzer.mk0, DataAnalyzer.aggregate]

/-- C2, amended: calling `aggregate` without a preceding `group_by`
raises no error at all; it returns the analyzer unchanged except for
the appended log entry, so the aggregation is applied to the data only
when `group_by` was called first. -/
theorem aggregate_without_group_by_succeeds (s : DataAnalyzer) (column func : String)
    (h : s.group_by_pending = none) :
    DataAnalyzer.aggregate s column func =
      .ok { s with operations := s.operations ++ [aggregateLogEntry column func] } := by
  simp [DataAnalyzer.aggregate, h]

/-- C2 amended, at a concrete fresh analyzer. -/
theorem aggregate_without_group_by_succeeds_witness :
    DataAnalyzer.aggregate (DataAnalyzer.mk0 ⟨["cases"], [[.int 3]]⟩) "cases" "mean" =
      .ok { original_df := ⟨["cases"], [[.int 3]]⟩, df := ⟨["cases"], [[.int 3]]⟩,
            operations := [aggregateLogEntry "cases" "mean"],
            group_by_pending := none } :=
  aggregate_without_group_by_succeeds (DataAnalyzer.mk0 ⟨["cases"], [[.int 3]]⟩)
    "cases" "mean" rfl

/-- C9: on an analyzer whose pending grouping is absent (never set, or
already consumed), `aggregate` raises no error, leaves both the
current and the original frame untouched, and still appends the
aggregate entry to the operations log — the log can thus list an
aggregation that was never applied to the data. -/
theorem aggregate_without_group_is_log_only (s : DataAnalyzer) (column func : String)
    (h : s.group_by_pending = none) :
    ∃ s2, DataAnalyzer.aggregate s column func = Except.ok s2 ∧
      s2.df = s.df ∧ s2.original_df = s.original_df ∧
      s2.group_by_pending = none ∧
      s2.operations = s.operations ++ [aggregateLogEntry column func] :=
  ⟨{ s with operations := s.operations ++ [aggregateLogEntry column func] },
    by simp [DataAnalyzer.aggregate, h], rfl, rfl, h, rfl⟩

/-- C9, at a concrete fresh analyzer over a two-column frame. -/
theorem aggregate_without_group_is_log_only_witness :
    ∃ s2, DataAnalyzer.aggregate
        (DataAnalyzer.mk0 ⟨["region", "deaths"], [[.str "EU", .int 4]]⟩)
        "deaths" "sum" = Except.ok s2 ∧
      s2.df = ⟨["region", "deaths"], [[.str "EU", .int 4]]⟩ ∧
      s2.original_df = ⟨["region", "deaths"], [[.str "EU", .int 4]]⟩ ∧
      s2.group_by_pending = none ∧
      s2.operations = [aggregateLogEntry "deaths" "sum"] :=
  aggregate_without_group_is_log_only
    (DataAnalyzer.mk0 ⟨["region", "deaths"], [[.str "EU", .int 4]]⟩)
    "deaths" "sum" rfl

/-- Every row a filter keeps passes the filter's own test. -/
theorem all_filter_self {α : Type} (p : α → Bool) (l : List α) :
    (l.filter p).all p = true := by
  simp only [List.all_eq_true]
  intro a ha
  exact (List.mem_filter.mp ha).2

/-- Sequentially applied filters only keep rows of the input that pass
every applied test. -/
theorem mem_foldl_filter {α β : Type} (f : β → α → Bool) (conds : List β)
    (rows : List α) (r : α)
    (hr : r ∈ conds.foldl (fun rs cv => rs.filter (f cv)) rows) :
    r ∈ rows ∧ ∀ cv ∈ conds, f cv r = true := by
  induction conds generalizing rows with
  | nil => exact ⟨hr, by simp⟩
  | cons c cs ih =>
      obtain ⟨h1, h2⟩ := ih (rows.filter (f c)) hr
      obtain ⟨h3, h4⟩ := List.mem_filter.mp h1
      refine ⟨h3, ?_⟩
      intro cv hcv
      rcases List.mem_cons.mp hcv with h | h
      · exact h ▸ h4
      · exact h2 _ h

/-- Sequentially applied filters never grow the row list. -/
theorem length_foldl_filter_le {α β : Type} (f : β → α → Bool) (conds : List β)
    (rows : List α) :
    (conds.foldl (fun rs cv => rs.filter (f cv)) rows).length ≤ rows.length := by
  induction conds generalizing rows with
  | nil => exact le_refl _
  | cons c cs ih => exact le_trans (ih _) (List.length_filter_le _ _)

/-- `filter_by_multiple_conditions` keeps the schema and folds the
per-condition row filters over the rows. -/
theorem filter_by_multiple_conditions_eq (df : DataFrame)
    (conds : List (String × FilterValue)) :
    filter_by_multiple_conditions df conds =
      { df with rows :=
          conds.foldl (fun rs cv => rs.filter (matchesValue df.cols cv.1 cv.2)) df.rows } := by
  induction conds generalizing df with
  | nil => rfl
  | cons c cs ih =>
      have step :
          filter_by_multiple_conditions df (c :: cs) =
            filter_by_multiple_conditions
              { df with rows := df.rows.filter (matchesValue df.cols c.1 c.2) } cs := rfl
      rw [step, ih]
      simp [List.foldl_cons]

/-- C6: every filter operation (value/membership filter, inclusive
date-range filter, multi-condition filter) returns at most as many
rows as its input, and every returned row passes the corresponding
predicate — the equality/membership test, the inclusive date bounds,
and the conjunction of all per-column tests respectively. -/
theorem filters_shrink_and_satisfy (df : DataFrame) (column : String)
    (value : FilterValue) (date_column : String) (start_date end_date : Option Int)
    (conditions : List (String × FilterValue)) :
    ((filter_by_column df column value).rows.length ≤ df.rows.length ∧
      (filter_by_column df column value).rows.all
        (matchesValue df.cols column value) = true) ∧
    ((filter_by_date_range df date_column start_date end_date).rows.length ≤
        df.rows.length ∧
      (filter_by_date_range df date_column start_date end_date).rows.all
        (inDateRange df.cols date_column start_date end_date) = true) ∧
    ((filter_by_multiple_conditions df conditions).rows.length ≤ df.rows.length ∧
      (filter_by_multiple_conditions df conditions).rows.all
        (fun r => conditions.all (fun cv => matchesValue df.cols cv.1 cv.2 r)) = true) := by
  refine ⟨⟨List.length_filter_le _ _, all_filter_self _ _⟩,
          ⟨List.length_filter_le _ _, all_filter_self _ _⟩, ?_, ?_⟩
  · rw [filter_by_multiple_conditions_eq]
    exact length_foldl_filter_le _ _ _
  · rw [filter_by_multiple_conditions_eq]
    simp only [List.all_eq_true]
    intro r hr
    have h := mem_foldl_filter (fun cv => matchesValue df.cols cv.1 cv.2) conditions
      df.rows r hr
    exact h.2

/-- C5: for a window `w ≥ 1`, the moving-average column has one entry
per input row; its first `w − 1` entries are null, and each entry at
index `i ≥ w − 1` is the arithmetic mean of the `w` input values at
rows `i − w + 1` through `i`. -/
theorem moving_average_window (xs : List ℚ) (w : Nat) (_hw : 1 ≤ w) :
    (calculate_moving_average xs w).length = xs.length ∧
    (∀ i, i < xs.length → i + 1 < w →
      (calculate_moving_average xs w)[i]? = some none) ∧
    (∀ i, i < xs.length → w ≤ i + 1 →
      ((xs.drop (i + 1 - w)).take w).length = w ∧
      (calculate_moving_average xs w)[i]? =
        some (some (((xs.drop (i + 1 - w)).take w).sum / (w : ℚ)))) := by
  refine ⟨by simp [calculate_moving_average], ?_, ?_⟩
  · intro i h1 h2
    have hnot : ¬ w ≤ i + 1 := by omega
    simp [calculate_moving_average, List.getElem?_range h1, hnot]
  · intro i h1 h2
    have hlen : ((xs.drop (i + 1 - w)).take w).length = w := by
      simp only [List.length_take, List.length_drop]
      omega
    refine ⟨hlen, ?_⟩
    have harith : (i + 1 - w) + w = i + 1 := by omega
    have hslice : (xs.drop (i + 1 - w)).take w = (xs.take (i + 1)).drop (i + 1 - w) := by
      rw [List.take_drop, harith]
    simp only [calculate_moving_average, List.getElem?_map, List.getElem?_range h1,
      Option.map_some']
    rw [if_pos h2]
    simp only [qmean, windowSlice, ← hslice, hlen]

/-- C5 at a concrete input: the window-2 moving average of
`[1, 2, 3, 10]` at row 2 is the mean of rows 1 and 2. -/
theorem moving_average_window_witness :
    ((([(1 : ℚ), 2, 3, 10].drop 1).take 2).length = 2 ∧
      (calculate_moving_average [(1 : ℚ), 2, 3, 10] 2)[2]? =
        some (some ((([(1 : ℚ), 2, 3, 10].drop 1).take 2).sum / (2 : ℚ)))) :=
  (moving_average_window [(1 : ℚ), 2, 3, 10] 2 (by norm_num)).2.2 2
    (by norm_num) (by norm_num)

/-- `dictInsert` adds exactly the inserted key to the dict's key
set. -/
theorem dictInsert_hasKey (d : List (String × StatVal)) (k v k') :
    ((dictInsert d k v).any (fun p => p.1 == k')) =
      (d.any (fun p => p.1 == k') || k == k') := by
  unfold dictInsert
  by_cases h : d.any (fun p => p.1 == k)
  · rw [if_pos h]
    have hmap : ∀ e : List (String × StatVal),
        (e.map (fun p => if p.1 == k then (p.1, v) else p)).any (fun p => p.1 == k') =
          e.any (fun p => p.1 == k') := by
      intro e
      rw [List.any_map]
      congr 1
      funext p
      by_cases hp : p.1 = k <;> simp [hp, Function.comp]
    rw [hmap]
    by_cases hk : k = k'
    · have hd : d.any (fun p => p.1 == k') = true := hk ▸ h
      simp [hd, hk]
    · simp [hk]
  · rw [if_neg h]
    simp [List.any_append]

/-- An unrecognized metric name falls through the if/elif chain without
touching the dict. -/
theorem statStep_unknown (xs : List ℚ) (stats : List (String × StatVal))
    (m : String) (h : defaultMetrics.contains m = false) :
    statStep xs stats m = stats := by
  have hm : m ≠ "mean" ∧ m ≠ "median" ∧ m ≠ "min" ∧ m ≠ "max" ∧ m ≠ "sum" ∧
      m ≠ "count" ∧ m ≠ "std" := by
    refine ⟨?_, ?_, ?_, ?_, ?_, ?_, ?_⟩ <;> (intro e; subst e; revert h; decide)
  obtain ⟨h1, h2, h3, h4, h5, h6, h7⟩ := hm
  simp [statStep, h1, h2, h3, h4, h5, h6, h7]

/-- One loop iteration of `calculate_statistics` adds the metric's key
exactly when the metric name is recognized. -/
theorem statStep_hasKey (xs : List ℚ) (stats : List (String × StatVal))
    (m k : String) :
    ((statStep xs stats m).any (fun p => p.1 == k)) =
      (stats.any (fun p => p.1 == k) || (defaultMetrics.contains m && (m == k))) := by
  have htrue : ∀ m', m' ∈ defaultMetrics → defaultMetrics.contains m' = true := by
    intro m' hm'
    simpa using hm'
  by_cases h1 : m = "mean"
  · subst h1; rw [htrue _ (by decide)]; simp [statStep, dictInsert_hasKey]
  by_cases h2 : m = "median"
  · subst h2; rw [htrue _ (by decide)]; simp [statStep, dictInsert_hasKey]
  by_cases h3 : m = "min"
  · subst h3; rw [htrue _ (by decide)]; simp [statStep, h1, dictInsert_hasKey]
  by_cases h4 : m = "max"
  · subst h4; rw [htrue _ (by decide)]; simp [statStep, h1, h2, dictInsert_hasKey]
  by_cases h5 : m = "sum"
  · subst h5; rw [htrue _ (by decide)]; simp [statStep, h1, h2, h3, dictInsert_hasKey]
  by_cases h6 : m = "count"
  · subst h6; rw [htrue _ (by decide)]
    simp [statStep, h1, h2, h3, h4, dictInsert_hasKey]
  by_cases h7 : m = "std"
  · subst h7; rw [htrue _ (by decide)]
    simp [statStep, h1, h2, h3, h4, h5, dictInsert_hasKey]
  · have hc : defaultMetrics.contains m = false := by
      simp [defaultMetrics, h1, h2, h3, h4, h5, h6, h7]
    rw [statStep_unknown xs stats m hc, hc]
    simp

/-- Running the metrics loop adds exactly the recognized requested
keys to the dict's key set. -/
theorem foldl_statStep_hasKey (xs : List ℚ) (ms : List String)
    (init : List (String × StatVal)) (k : String) :
    ((ms.foldl (statStep xs) init).any (fun p => p.1 == k)) =
      (init.any (fun p => p.1 == k) || (defaultMetrics.contains k && ms.contains k)) := by
  induction ms generalizing init with
  | nil => simp
  | cons m ms ih =>
      rw [List.foldl_cons, ih, statStep_hasKey]
      by_cases hm : m = k
      · subst hm
        simp only [List.contains_cons, beq_self_eq_true, Bool.true_or, Bool.and_true]
        cases hA : init.any (fun p => p.1 == m) <;>
          cases hC : defaultMetrics.contains m <;>
            cases hX : ms.contains m <;> simp
      · have hkm : k ≠ m := fun e => hm e.symm
        have hmk : (m == k) = false := beq_eq_false_iff_ne.mpr hm
        simp [List.contains_cons, hkm, hmk]

/-- A metrics loop over only-unknown names never touches the dict. -/
theorem foldl_statStep_unknown (xs : List ℚ) (ms : List String)
    (init : List (String × StatVal))
    (h : ∀ m ∈ ms, defaultMetrics.contains m = false) :
    ms.foldl (statStep xs) init = init := by
  induction ms generalizing init with
  | nil => rfl
  | cons m ms ih =>
      rw [List.foldl_cons, statStep_unknown xs init m (h m (by simp))]
      exact ih _ (fun m' hm' => h m' (by simp [hm']))

/-- C10: `calculate_statistics` silently ignores unrecognized metric
names: the returned dict has a key for exactly the recognized metrics
(mean, median, min, max, sum, count, std) present in the requested
list; a request of only unknown names yields the empty dict with no
error; `calculate_summary` (behind `get_summary`) inherits this by
computing `calculate_statistics` per column; and `compare_groups`
(behind `compare`) inherits it by computing `calculate_statistics` per
group, so each group's block likewise has keys for exactly the
recognized requested metrics and is empty on only-unknown names. -/
theorem statistics_ignore_unknown_metrics :
    (∀ (df : StatFrame) (column : String) (ms : List String) (k : String),
      ((calculate_statistics df column (some ms)).any (fun p => p.1 == k)) =
        (defaultMetrics.contains k && ms.contains k)) ∧
    (∀ (df : StatFrame) (column : String) (ms : List String),
      calculate_statistics df column
        (some (ms.filter (fun m => !defaultMetrics.contains m))) = []) ∧
    (∀ (df : StatFrame) (columns : List String) (ms : Option (List String)),
      calculate_summary df columns ms =
        columns.map (fun c => (c, calculate_statistics df c ms))) ∧
    (∀ (groups : List (String × List ℚ)) (ms : Option (List String)),
      compare_groups groups ms =
        groups.map (fun g => (g.1, calculate_statistics [(g.1, g.2)] g.1 ms))) ∧
    (∀ (groups : List (String × List ℚ)) (ms : List String) (k : String),
      (compare_groups groups (some ms)).all
        (fun p => (p.2.any (fun q => q.1 == k)) ==
          (defaultMetrics.contains k && ms.contains k)) = true) ∧
    (∀ (groups : List (String × List ℚ)) (ms : List String),
      compare_groups groups
          (some (ms.filter (fun m => !defaultMetrics.contains m))) =
        groups.map (fun g => (g.1, []))) := by
  have hunknown : ∀ (xs : List ℚ) (ms : List String),
      (ms.filter (fun m => !defaultMetrics.contains m)).foldl (statStep xs) [] =
        ([] : List (String × StatVal)) :=
    fun xs ms => foldl_statStep_unknown _ _ _
      (fun m hm => by simpa using (List.mem_filter.mp hm).2)
  refine ⟨?_, ?_, fun _ _ _ => rfl, ?_, ?_, ?_⟩
  · intro df column ms k
    unfold calculate_statistics
    rw [foldl_statStep_hasKey]
    simp
  · intro df column ms
    exact hunknown _ _
  · intro groups ms
    have hcol : ∀ (a : String) (b : List ℚ), getColumn [(a, b)] a = b := by
      intro a b
      simp [getColumn]
    simp [compare_groups, calculate_statistics, hcol]
  · intro groups ms k
    simp only [List.all_eq_true]
    intro p hp
    simp only [compare_groups, List.mem_map] at hp
    obtain ⟨g, _, rfl⟩ := hp
    simp [foldl_statStep_hasKey]
  · intro groups ms
    unfold compare_groups
    simp only [Option.getD_some]
    exact List.map_congr_left (fun g _ => by rw [hunknown])

/-- C7: `detect_outliers` with the IQR method flags exactly the values
strictly outside `[Q1 − t·IQR, Q3 + t·IQR]` where Q1/Q3 are the 25th
and 75th percentiles and `IQR = Q3 − Q1`; on
`[100, 105, 110, 115, 120, 1000]` with threshold 1.5 it flags only the
last element. -/
theorem detect_outliers_iqr_spec :
    (∀ (xs : List ℚ) (t : ℚ) (i : Nat),
      (detect_outliers_iqr xs t)[i]? = (xs[i]?).map (fun x =>
        decide (x < quantile xs (1 / 4) -
                  t * (quantile xs (3 / 4) - quantile xs (1 / 4)) ∨
                quantile xs (3 / 4) +
                  t * (quantile xs (3 / 4) - quantile xs (1 / 4)) < x))) ∧
    detect_outliers_iqr [100, 105, 110, 115, 120, 1000] (3 / 2) =
      [false, false, false, false, false, true] := by
  constructor
  · intro xs t i
    simp only [detect_outliers_iqr, List.getElem?_map]
    cases xs[i]? with
    | none => rfl
    | some x => simp [Bool.decide_or]
  · have h3 : ((3 : Int)).toNat = 3 := rfl
    norm_num [detect_outliers_iqr, quantile, List.insertionSort, List.orderedInsert,
      h3, List.getD]

/-- The by-date ordering on trend rows is total. -/
instance : IsTotal TrendRow (fun a b => a.date ≤ b.date) :=
  ⟨fun a b => Int.le_total a.date b.date⟩

/-- The by-date ordering on trend rows is transitive. -/
instance : IsTrans TrendRow (fun a b => a.date ≤ b.date) :=
  ⟨fun _ _ _ h h2 => le_trans h h2⟩

/-- Taking the first components of a key-tagged map recovers the
keys. -/
theorem map_fst_map_pair {A B : Type} (f : A → B) (l : List A) :
    (l.map (fun g => (g, f g))).map Prod.fst = l := by
  induction l with
  | nil => rfl
  | cons a as ih => simp [ih]

/-- C8: on a non-empty dataset, `analyze_trends` sorts the rows by the
date column ascending (the sorted rows are a permutation of the input
ordered by date); the growth rate is `((last − first)/first)·100` over
the value column after that sort, 0 when the first value is 0; the
direction is increasing / decreasing / stable by the ±5 threshold on
the growth rate; and the grouped variant returns exactly one metrics
block per distinct group value, each block being the trend metrics of
that group's date-sorted rows. -/
theorem analyze_trends_spec (rows : List TrendRow) (_h : rows ≠ []) :
    List.Sorted (fun a b => a.date ≤ b.date) (sortByDate rows) ∧
    List.Perm (sortByDate rows) rows ∧
    (analyze_trends rows).growth_rate =
      (if ((sortByDate rows).map (fun r => r.value)).headD 0 = 0 then 0
       else ((((sortByDate rows).map (fun r => r.value)).getLastD 0 -
               ((sortByDate rows).map (fun r => r.value)).headD 0) /
              ((sortByDate rows).map (fun r => r.value)).headD 0) * 100) ∧
    (analyze_trends rows).trend =
      (if (analyze_trends rows).growth_rate > 5 then "increasing"
       else if (analyze_trends rows).growth_rate < -5 then "decreasing"
       else "stable") ∧
    ((analyze_trends_grouped rows).map Prod.fst).Nodup ∧
    (∀ g, g ∈ (analyze_trends_grouped rows).map Prod.fst ↔
      g ∈ rows.map (fun r => r.group)) ∧
    (∀ p ∈ analyze_trends_grouped rows,
      p.2 = calculate_trend_metrics
        (((sortByDate rows).filter (fun r => r.group == p.1)).map (fun r => r.value))) := by
  have hperm : List.Perm (sortByDate rows) rows :=
    List.perm_insertionSort _ rows
  have hkeys : List.Perm
      (List.insertionSort (· ≤ ·) (((sortByDate rows).map (fun r => r.group)).dedup))
      (((sortByDate rows).map (fun r => r.group)).dedup) :=
    List.perm_insertionSort _ _
  refine ⟨List.sorted_insertionSort _ rows, hperm, ?_, rfl, ?_, ?_, ?_⟩
  · by_cases h0 : ((sortByDate rows).map (fun r => r.value)).headD 0 = 0
    · simp [analyze_trends, calculate_trend_metrics, h0]
    · simp [analyze_trends, calculate_trend_metrics, h0]
  · have hm1 : ((analyze_trends_grouped rows).map Prod.fst) =
        List.insertionSort (· ≤ ·) (((sortByDate rows).map (fun r => r.group)).dedup) := by
      simp only [analyze_trends_grouped]
      exact map_fst_map_pair _ _
    rw [hm1]
    exact hkeys.nodup_iff.mpr (List.nodup_dedup _)
  · intro g
    have hmap : ((analyze_trends_grouped rows).map Prod.fst) =
        List.insertionSort (· ≤ ·) (((sortByDate rows).map (fun r => r.group)).dedup) := by
      simp only [analyze_trends_grouped]
      exact map_fst_map_pair _ _
    rw [hmap, hkeys.mem_iff, List.mem_dedup, (hperm.map (fun r => r.group)).mem_iff]
  · intro p hp
    simp only [analyze_trends_grouped, List.mem_map] at hp
    obtain ⟨g, _, rfl⟩ := hp
    rfl

/-- C8 at a concrete two-row dataset (rows given out of date order). -/
theorem analyze_trends_spec_witness :
    List.Sorted (fun a b => a.date ≤ b.date)
      (sortByDate [⟨2, "b", 10⟩, ⟨1, "a", 5⟩]) :=
  (analyze_trends_spec [⟨2, "b", 10⟩, ⟨1, "a", 5⟩] (by simp)).1
